import Mathlib

/-!
Shallow embedding of `src/calories_health.py` (a Streamlit app gluing a
Gemini image-analysis path and a CalorieNinjas text-lookup path).

Modelling conventions:
* Python exceptions raised by downstream clients become inductive types
  (`PyExc` for the Gemini call, `ReqExc` for the HTTP lookup).  A Python
  `except C` handler is a boolean class test mirroring the class
  hierarchy of `google.api_core.exceptions` / `requests.exceptions`.
* A function that could let an exception escape returns `Except E String`;
  returning `.ok` means the boundary converted the failure into a string.
* The result of the one downstream call each path makes is passed in as an
  explicit argument (the environment); a `Nat` component counts how many
  downstream calls were issued.
* JSON numbers for calories are modelled as `Int`; optional JSON fields as
  `Option`, with Python `dict.get` defaults via `Option.getD`.
-/

/-- Python truthiness of an optional string (`None` and `""` are falsy). -/
def pyTruthy : Option String → Bool
  | none => false
  | some s => !s.isEmpty

/-- Whether `pat` occurs at the start of `hay` (over char lists). -/
def charsStartWith : List Char → List Char → Bool
  | _, [] => true
  | [], _ :: _ => false
  | c :: cs, p :: ps => c == p && charsStartWith cs ps

/-- Whether `pat` occurs anywhere inside `hay` (over char lists). -/
def charsContains : List Char → List Char → Bool
  | [], pat => pat.isEmpty
  | c :: rest, pat => charsStartWith (c :: rest) pat || charsContains rest pat

/-- Python `pat in s` substring test. -/
def strContains (s pat : String) : Bool :=
  charsContains s.data pat.data

/-- Python `s.strip()`: drop leading and trailing whitespace. -/
def pyStrip (s : String) : String :=
  ⟨((s.data.dropWhile Char.isWhitespace).reverse.dropWhile Char.isWhitespace).reverse⟩

/-! ## Gemini image path (`get_gemini_response`, lines 43-62) -/

/-- Exceptions the Gemini call can raise, as used in the `except` chain. -/
inductive PyExc where
  | invalidArgument (msg : String)
  | resourceExhausted (msg : String)
  | googleAPIError (msg : String)
  | otherException (msg : String)
deriving DecidableEq, Repr

/-- `str(e)` for a raised exception. -/
def PyExc.message : PyExc → String
  | .invalidArgument m => m
  | .resourceExhausted m => m
  | .googleAPIError m => m
  | .otherException m => m

/-- `except InvalidArgument` class test. -/
def catchesInvalidArgument : PyExc → Bool
  | .invalidArgument _ => true
  | _ => false

/-- `except ResourceExhausted` class test. -/
def catchesResourceExhausted : PyExc → Bool
  | .resourceExhausted _ => true
  | _ => false

/-- `except GoogleAPIError` class test: `InvalidArgument` and
`ResourceExhausted` are subclasses of `GoogleAPIError`. -/
def catchesGoogleAPIError : PyExc → Bool
  | .invalidArgument _ => true
  | .resourceExhausted _ => true
  | .googleAPIError _ => true
  | .otherException _ => false

/-- `except Exception` class test (all modelled exceptions derive from
`Exception`). -/
def catchesException : PyExc → Bool := fun _ => true

/-- The duck-typed object returned by `model.generate_content`: the code
reads `getattr(response, "text", str(response))`. -/
structure GenaiResponse where
  text : Option String
  str_repr : String
deriving DecidableEq, Repr

/-- One image part prepared by `input_image_setup`
(`{"mime_type": ..., "data": ...}`). -/
structure ImagePart where
  mime_type : Option String
  data : List Nat
deriving DecidableEq, Repr

/-- `get_gemini_response(prompt_text, image_parts, user_text)`.
`gen` is the outcome of the single `model.generate_content` call (either a
response object or a raised exception); the second component of the result
counts how many `generate_content` calls were issued.  An `.error` result
would mean an exception escaped the boundary. -/
def get_gemini_response (gen : Except PyExc GenaiResponse)
    (prompt_text : String) (image_parts : Option (List ImagePart))
    (user_text : String) : Except PyExc String × Nat :=
  match gen with
  | .ok response => (.ok (response.text.getD response.str_repr), 1)
  | .error e =>
    if catchesInvalidArgument e then
      if strContains e.message "API key expired"
          || strContains e.message "API_KEY_INVALID" then
        (.ok "⚠️ Your Google API key is invalid or expired. Renew it in Google AI Studio.", 1)
      else
        (.ok ("❌ Invalid argument: " ++ e.message), 1)
    else if catchesResourceExhausted e then
      (.ok "🚫 Google API quota exceeded. Try again later.", 1)
    else if catchesGoogleAPIError e then
      (.ok ("❗ Google API error: " ++ e.message), 1)
    else if catchesException e then
      (.ok ("💥 Unexpected error: " ++ e.message), 1)
    else
      (.error e, 1)

/-! ## Image upload normalization (`input_image_setup`, lines 64-78) -/

/-- The Streamlit uploaded-file object as the function consumes it:
`getvalue()` may raise (modelled as `.error`), `.type` may be `None`. -/
structure UploadedFile where
  getvalue : Except String (List Nat)
  type : Option String
deriving Repr

/-- `input_image_setup(uploaded_file)`: returns the prepared image parts
(or `None`), together with the list of `st.warning` messages emitted. -/
def input_image_setup (uploaded_file : Option UploadedFile) :
    Option (List ImagePart) × List String :=
  match uploaded_file with
  | none => (none, [])
  | some f =>
    match f.getvalue with
    | .ok bytes_data => (some [⟨f.type, bytes_data⟩], [])
    | .error e => (none, ["Unable to prepare image for upload: " ++ e])

/-! ## CalorieNinjas text path (`lookup_calories_calorieninjas`, lines 80-116) -/

/-- One element of the JSON `items` array; every field is optional because
the code reads them with `item.get(..., default)`. -/
structure NutritionItem where
  name : Option String
  calories : Option Int
  serving_size : Option String
deriving DecidableEq, Repr

/-- The parsed JSON body: `data.get("items", [])`. -/
structure LookupData where
  items : Option (List NutritionItem)
deriving DecidableEq, Repr

/-- Exceptions the HTTP lookup can raise
(`requests.exceptions.RequestException` covers transport errors, timeouts
and `raise_for_status`; anything else is a plain `Exception`). -/
inductive ReqExc where
  | requestException (msg : String)
  | otherException (msg : String)
deriving DecidableEq, Repr

/-- `str(e)` for a raised lookup exception. -/
def ReqExc.message : ReqExc → String
  | .requestException m => m
  | .otherException m => m

/-- `except requests.exceptions.RequestException` class test. -/
def catchesRequestException : ReqExc → Bool
  | .requestException _ => true
  | .otherException _ => false

/-- `except Exception` class test for the lookup path. -/
def catchesExceptionReq : ReqExc → Bool := fun _ => true

/-- The line formatted for one item inside the `for item in items` loop. -/
def itemLine (item : NutritionItem) : String :=
  let name := item.name.getD "item"
  let cal := item.calories.getD 0
  let serving := item.serving_size.getD ""
  if serving ≠ "" then
    name ++ " (" ++ serving ++ ") — " ++ toString cal ++ " kcal"
  else
    name ++ " — " ++ toString cal ++ " kcal"

/-- The `for item in items` loop: accumulates `lines` and `total_cal`. -/
def lookupLoop : List NutritionItem → List String → Int → List String × Int
  | [], lines, total_cal => (lines, total_cal)
  | item :: rest, lines, total_cal =>
    lookupLoop rest (lines ++ [itemLine item]) (total_cal + item.calories.getD 0)

/-- `lookup_calories_calorieninjas(free_text)`.  `CALORIE_NINJAS_KEY` is the
module-level credential; `http` is the outcome of the single
`requests.get` + `raise_for_status` + `r.json()` interaction (a parsed body
or a raised exception).  The `Nat` component counts network calls issued;
an `.error` result would mean an exception escaped the boundary. -/
def lookup_calories_calorieninjas (CALORIE_NINJAS_KEY : Option String)
    (free_text : String) (http : Except ReqExc LookupData) :
    Except ReqExc String × Nat :=
  if !pyTruthy CALORIE_NINJAS_KEY then
    (.ok "Calorie lookup unavailable: CALORIE_NINJAS_KEY not set.", 0)
  else
    match http with
    | .ok data =>
      let items := data.items.getD []
      if items.isEmpty then
        (.ok "No nutrition data found for that query.", 1)
      else
        let acc := lookupLoop items [] 0
        let lines := acc.1 ++ ["----", "Estimated total: " ++ toString acc.2 ++ " kcal"]
        (.ok (String.intercalate "\n" lines), 1)
    | .error e =>
      if catchesRequestException e then
        (.ok ("Error calling CalorieNinjas: " ++ e.message), 1)
      else if catchesExceptionReq e then
        (.ok ("Unexpected error in calorie lookup: " ++ e.message), 1)
      else
        (.error e, 1)

/-- The `@st.cache_data` memoization around `lookup_calories_calorieninjas`:
the cache is keyed on the function argument `free_text`; a hit returns the
cached value without re-running the body. -/
def cached_lookup (cache : List (String × Except ReqExc String))
    (CALORIE_NINJAS_KEY : Option String) (free_text : String)
    (http : Except ReqExc LookupData) :
    Except ReqExc String × List (String × Except ReqExc String) :=
  match cache.lookup free_text with
  | some v => (v, cache)
  | none =>
    let v := (lookup_calories_calorieninjas CALORIE_NINJAS_KEY free_text http).1
    (v, (free_text, v) :: cache)

/-! ## Analyze click handler (lines 156-189) -/

/-- Observable effects of one press of the Analyze button: the
`st.error` validation messages emitted, and how many times each path
function (`get_gemini_response`, `lookup_calories_calorieninjas`) was
invoked. -/
structure ClickTrace where
  validation_errors : List String
  gemini_calls : Nat
  lookup_calls : Nat
deriving DecidableEq, Repr

/-- The body of `if analyze:`: validation guard, then the image column
(Gemini runs only if a file was uploaded and `input_image_setup`
succeeded) and the text column (lookup runs only if the unified input is
non-blank). -/
def analyze_click (uploaded_file : Option UploadedFile)
    (unified_input : String) : ClickTrace :=
  if uploaded_file.isNone && (unified_input.isEmpty || (pyStrip unified_input).isEmpty) then
    ⟨["Please upload an image or type a dish/ingredients (or both)."], 0, 0⟩
  else
    let gemini_calls : Nat :=
      match uploaded_file with
      | none => 0
      | some f =>
        match (input_image_setup (some f)).1 with
        | none => 0
        | some _ => 1
    let lookup_calls : Nat :=
      if unified_input.isEmpty || (pyStrip unified_input).isEmpty then 0 else 1
    ⟨[], gemini_calls, lookup_calls⟩

/-! ## Helper lemmas -/

/-- Normal form of the loop's accumulated lines. -/
theorem lookupLoop_fst (items : List NutritionItem) (lines : List String)
    (total_cal : Int) :
    (lookupLoop items lines total_cal).1 = lines ++ items.map itemLine := by
  induction items generalizing lines total_cal with
  | nil => simp [lookupLoop]
  | cons i rest ih => simp [lookupLoop, ih]

/-- Normal form of the loop's accumulated total. -/
theorem lookupLoop_snd (items : List NutritionItem) (lines : List String)
    (total_cal : Int) :
    (lookupLoop items lines total_cal).2 =
      total_cal + (items.map fun i => i.calories.getD 0).sum := by
  induction items generalizing lines total_cal with
  | nil => simp [lookupLoop]
  | cons i rest ih => simp [lookupLoop, ih]; ring

/-! ## Claim theorems -/

/-- C1: neither analysis path ever propagates a downstream failure past its
own boundary: for every outcome of the downstream call, including every
raised exception, `get_gemini_response` and `lookup_calories_calorieninjas`
return an `.ok` human-readable string, never an escaping `.error`. -/
theorem paths_never_propagate_failures :
    (∀ gen prompt_text image_parts user_text, ∃ s : String,
      (get_gemini_response gen prompt_text image_parts user_text).1 = Except.ok s) ∧
    (∀ key free_text http, ∃ s : String,
      (lookup_calories_calorieninjas key free_text http).1 = Except.ok s) := by
  constructor
  · intro gen prompt_text image_parts user_text
    match gen with
    | .ok r => exact ⟨_, rfl⟩
    | .error e =>
      cases e <;>
        simp only [get_gemini_response, catchesInvalidArgument,
          catchesResourceExhausted, catchesGoogleAPIError, catchesException,
          if_true, if_false, Bool.false_eq_true] <;>
        first
          | exact ⟨_, rfl⟩
          | (split <;> exact ⟨_, rfl⟩)
  · intro key free_text http
    unfold lookup_calories_calorieninjas
    split
    · exact ⟨_, rfl⟩
    · match http with
      | .ok data =>
        dsimp only
        split
        · exact ⟨_, rfl⟩
        · exact ⟨_, rfl⟩
      | .error e =>
        cases e <;>
          simp only [catchesRequestException, catchesExceptionReq,
            if_true, if_false, Bool.false_eq_true] <;>
          exact ⟨_, rfl⟩

/-- C2: for every lookup response with a non-empty items list (credential
configured), the result is one `itemLine` per item in service order,
followed by the `----` separator and an `Estimated total: {sum} kcal` line
whose sum is exactly the sum of the items' calories. -/
theorem lookup_nonempty_format (key : Option String) (free_text : String)
    (items : List NutritionItem) (hkey : pyTruthy key = true)
    (hne : items ≠ []) :
    (lookup_calories_calorieninjas key free_text (.ok ⟨some items⟩)).1 =
      Except.ok (String.intercalate "\n"
        (items.map itemLine ++
          ["----",
           "Estimated total: " ++
             toString ((items.map fun i => i.calories.getD 0).sum) ++ " kcal"])) := by
  unfold lookup_calories_calorieninjas
  rw [hkey]
  simp only [Bool.not_true, Bool.false_eq_true, if_false, Option.getD_some]
  rw [if_neg (by simpa [List.isEmpty_iff] using hne)]
  simp [lookupLoop_fst, lookupLoop_snd]

/-- Witness for C2: the spec's concrete two-item example evaluates to the
exact expected string. -/
theorem lookup_nonempty_format_witness :
    (lookup_calories_calorieninjas (some "k") "rice and chicken curry"
        (.ok ⟨some [⟨some "rice", some 200, none⟩,
                    ⟨some "chicken curry", some 350, some "1 bowl"⟩]⟩)).1 =
      Except.ok "rice — 200 kcal\nchicken curry (1 bowl) — 350 kcal\n----\nEstimated total: 550 kcal" := by
  have h := lookup_nonempty_format (some "k") "rice and chicken curry"
    [⟨some "rice", some 200, none⟩, ⟨some "chicken curry", some 350, some "1 bowl"⟩]
    (by decide) (by decide)
  exact h.trans (by rfl)

/-- C3: when no image is uploaded and the text input is empty or blank
after trimming, the Analyze click handler emits exactly one validation
error and invokes neither `get_gemini_response` nor
`lookup_calories_calorieninjas`. -/
theorem empty_query_single_validation_error (uploaded_file : Option UploadedFile)
    (unified_input : String) (himg : uploaded_file = none)
    (htxt : pyStrip unified_input = "") :
    analyze_click uploaded_file unified_input =
      ⟨["Please upload an image or type a dish/ingredients (or both)."], 0, 0⟩ := by
  subst himg
  have ht : (pyStrip unified_input).isEmpty = true := by rw [htxt]; rfl
  unfold analyze_click
  simp [ht]

/-- Witness for C3: a blank input with no upload yields the single
validation error and zero downstream invocations. -/
theorem empty_query_single_validation_error_witness :
    (pyStrip "   " = "") ∧
    analyze_click none "   " =
      ⟨["Please upload an image or type a dish/ingredients (or both)."], 0, 0⟩ :=
  ⟨by decide, empty_query_single_validation_error none "   " rfl (by decide)⟩

/-- C4: for every non-empty free-text query, when the CalorieNinjas
credential is not configured (unset or empty), the lookup returns the
"unavailable, credential missing" result and issues zero network calls. -/
theorem lookup_missing_key_no_network (key : Option String) (free_text : String)
    (http : Except ReqExc LookupData) (hq : free_text ≠ "")
    (hkey : pyTruthy key = false) :
    lookup_calories_calorieninjas key free_text http =
      (Except.ok "Calorie lookup unavailable: CALORIE_NINJAS_KEY not set.", 0) := by
  unfold lookup_calories_calorieninjas
  rw [hkey]
  rfl

/-- Witness for C4: a concrete query with the key unset. -/
theorem lookup_missing_key_no_network_witness :
    ("rice" ≠ "") ∧ (pyTruthy none = false) ∧
    lookup_calories_calorieninjas none "rice" (.ok ⟨some []⟩) =
      (Except.ok "Calorie lookup unavailable: CALORIE_NINJAS_KEY not set.", 0) :=
  ⟨by decide, by decide,
    lookup_missing_key_no_network none "rice" (.ok ⟨some []⟩) (by decide) (by decide)⟩

/-- C5: an invalid-argument failure whose message contains
"API_KEY_INVALID" or "API key expired" maps to the credential
invalid/expired message; any other invalid-argument failure maps to the
bad-request message carrying the underlying detail, and the two kinds are
never the same string. -/
theorem invalid_argument_credential_vs_bad_request
    (msg prompt_text user_text : String) (image_parts : Option (List ImagePart)) :
    (get_gemini_response (.error (.invalidArgument msg))
        prompt_text image_parts user_text).1 =
      Except.ok
        (if strContains msg "API key expired" || strContains msg "API_KEY_INVALID" then
          "⚠️ Your Google API key is invalid or expired. Renew it in Google AI Studio."
        else "❌ Invalid argument: " ++ msg) ∧
    ∀ m : String,
      "⚠️ Your Google API key is invalid or expired. Renew it in Google AI Studio." ≠
        "❌ Invalid argument: " ++ m := by
  constructor
  · cases hc : strContains msg "API key expired" || strContains msg "API_KEY_INVALID" with
    | true =>
      simp [get_gemini_response, catchesInvalidArgument, PyExc.message, hc]
    | false =>
      simp [get_gemini_response, catchesInvalidArgument, PyExc.message, hc]
  · intro m h
    have h2 := congrArg (fun s : String => s.data.head?) h
    have h3 : (some '⚠' : Option Char) = some '❌' := h2
    simp at h3

/-- C6: a resource-exhausted failure from the AI client maps to the quota
exceeded message, with exactly one downstream call (no retry) and no
exception propagated. -/
theorem resource_exhausted_quota (msg prompt_text user_text : String)
    (image_parts : Option (List ImagePart)) :
    get_gemini_response (.error (.resourceExhausted msg))
        prompt_text image_parts user_text =
      (Except.ok "🚫 Google API quota exceeded. Try again later.", 1) := rfl

/-- C7: a lookup response with an empty items array yields the literal "no
nutrition data found" message as an `.ok` (non-error) result. -/
theorem lookup_empty_items_success (key : Option String) (free_text : String)
    (hkey : pyTruthy key = true) :
    (lookup_calories_calorieninjas key free_text (.ok ⟨some []⟩)).1 =
      Except.ok "No nutrition data found for that query." := by
  unfold lookup_calories_calorieninjas
  rw [hkey]
  rfl

/-- Witness for C7: a concrete query with a configured key and an empty
items array. -/
theorem lookup_empty_items_success_witness :
    pyTruthy (some "k") = true ∧
    (lookup_calories_calorieninjas (some "k") "unobtainium stew"
        (.ok ⟨some []⟩)).1 =
      Except.ok "No nutrition data found for that query." :=
  ⟨by decide, lookup_empty_items_success (some "k") "unobtainium stew" (by decide)⟩

/-- C8: `input_image_setup` is total over uploaded files: whatever
`getvalue()` does (including raising) and whatever the declared type is
(including `none`), it returns either the prepared payload or the
"unable to prepare image" degraded result (a warning plus `none`). -/
theorem input_image_setup_never_throws (f : UploadedFile) :
    (∃ bytes_data, f.getvalue = Except.ok bytes_data ∧
      input_image_setup (some f) = (some [⟨f.type, bytes_data⟩], [])) ∨
    (∃ e, f.getvalue = Except.error e ∧
      input_image_setup (some f) =
        (none, ["Unable to prepare image for upload: " ++ e])) := by
  cases hg : f.getvalue with
  | ok b =>
    refine Or.inl ⟨b, rfl, ?_⟩
    simp only [input_image_setup]
    rw [hg]
  | error e =>
    refine Or.inr ⟨e, rfl, ?_⟩
    simp only [input_image_setup]
    rw [hg]

/-- C9: under the `@st.cache_data` memoization, calling the lookup twice
with the same query string and an unchanged upstream response yields the
same result string both times. -/
theorem cached_lookup_idempotent (cache : List (String × Except ReqExc String))
    (key : Option String) (free_text : String) (http : Except ReqExc LookupData) :
    (cached_lookup (cached_lookup cache key free_text http).2 key free_text http).1 =
      (cached_lookup cache key free_text http).1 := by
  unfold cached_lookup
  cases hc : cache.lookup free_text with
  | some v => simp [hc]
  | none => simp [hc, List.lookup]

/-- C10: defaults for missing item fields at the lookup's public interface:
a missing name renders as "item", missing calories count as 0 (in the line
and in the total), and a missing or empty serving size drops the
parenthesized portion of the line. -/
theorem lookup_missing_field_defaults (key : Option String) (free_text : String)
    (hkey : pyTruthy key = true) (n : Option String) (c : Option Int)
    (s : Option String) (rest : List NutritionItem) :
    (lookup_calories_calorieninjas key free_text
        (.ok ⟨some (⟨none, c, s⟩ :: rest)⟩)).1 =
      (lookup_calories_calorieninjas key free_text
        (.ok ⟨some (⟨some "item", c, s⟩ :: rest)⟩)).1 ∧
    (lookup_calories_calorieninjas key free_text
        (.ok ⟨some (⟨n, none, s⟩ :: rest)⟩)).1 =
      (lookup_calories_calorieninjas key free_text
        (.ok ⟨some (⟨n, some 0, s⟩ :: rest)⟩)).1 ∧
    itemLine ⟨n, c, none⟩ =
      n.getD "item" ++ " — " ++ toString (c.getD 0) ++ " kcal" ∧
    itemLine ⟨n, c, some ""⟩ =
      n.getD "item" ++ " — " ++ toString (c.getD 0) ++ " kcal" := by
  refine ⟨rfl, rfl, ?_, ?_⟩ <;> simp [itemLine]

/-- Witness for C10: an item with every field missing renders with all
three defaults. -/
theorem lookup_missing_field_defaults_witness :
    pyTruthy (some "k") = true ∧ itemLine ⟨none, none, none⟩ = "item — 0 kcal" := by
  refine ⟨by decide, ?_⟩
  have h := (lookup_missing_field_defaults (some "k") "x"
    (by decide) none none none []).2.2.1
  exact h.trans (by rfl)

/-- Witness for C5: a concrete invalid-argument message containing
"API_KEY_INVALID" maps to the credential message, not the bad-request
message. -/
theorem invalid_argument_credential_vs_bad_request_witness :
    (get_gemini_response (.error (.invalidArgument "400 API_KEY_INVALID")) "p" none "u").1 =
      Except.ok "⚠️ Your Google API key is invalid or expired. Renew it in Google AI Studio." := by
  have h := (invalid_argument_credential_vs_bad_request "400 API_KEY_INVALID" "p" "u" none).1
  exact h.trans (by rfl)
